import Mathlib

/-
Verification of the order-placement saga of the Valerix repository.

The embedding below models the two route handlers that carry the core
logic:

* `deduct` models `POST /inventory/deduct` of
  `src/services/inventory-service/src/index.ts` (validation, idempotency
  lookup, the `prisma.$transaction` body `deductTx`, and the quantity-13
  gremlin latency).
* `placeOrder` models `POST /orders` of
  `src/services/order-service/src/index.ts` (validation, PENDING order
  creation, the bounded-deadline call into the deduction handler, and the
  terminal CONFIRMED/FAILED write).

JavaScript request-field truthiness (`!productId || !quantity || ...`) is
modelled by the `truthy*` functions on `Option` values: a missing field is
`none`, and `0` / the empty string are falsy just as in JavaScript.
-/

namespace Valerix

/-- A row of the `Product` table: id, display name, stock count. -/
structure Product where
  id : Nat
  name : String
  stock : Int
deriving Repr, DecidableEq

/-- Persistent state of the inventory service: the product table and the
idempotency log (set of order ids already processed). -/
structure InvState where
  products : List Product
  idempotencyLog : List String
deriving Repr, DecidableEq

/-- `tx.product.findUnique (where id = productId)`: first row whose id
matches. -/
def findProduct : List Product → Nat → Option Product
  | [], _ => none
  | p :: ps, pid => if p.id == pid then some p else findProduct ps pid

/-- `tx.product.update (where id = productId) (data stock = v)`: rewrite the
stock of every row whose id matches. -/
def updateStock : List Product → Nat → Int → List Product
  | [], _, _ => []
  | p :: ps, pid, v =>
    (if p.id == pid then { p with stock := v } else p) :: updateStock ps pid v

/-- Stock count of the product with id `pid`, if present. -/
def stockOf (s : InvState) (pid : Nat) : Option Int :=
  (findProduct s.products pid).map (fun p => p.stock)

/-- JS truthiness of a numeric id field: missing and `0` are falsy. -/
def truthyNat : Option Nat → Bool
  | none => false
  | some n => n != 0

/-- JS truthiness of a numeric quantity field: missing and `0` are falsy;
negative numbers are truthy. -/
def truthyInt : Option Int → Bool
  | none => false
  | some q => q != 0

/-- JS truthiness of a string field: missing and `""` are falsy. -/
def truthyStr : Option String → Bool
  | none => false
  | some s => s != ""

/-- The single error message thrown inside the inventory transaction. -/
def insufficientMsg : String := "Insufficient stock or product not found"

/-- Validation error message of `POST /inventory/deduct`. -/
def missingFieldsMsg : String := "Missing productId, quantity, or orderId"

/-- The gremlin fires when the requested quantity equals 13. -/
def GREMLIN_QUANTITY : Int := 13

/-- The gremlin delays the response by 5000 ms. -/
def GREMLIN_DELAY_MS : Nat := 5000

/-- The order service aborts the inventory call after 2000 ms. -/
def ORDER_TIMEOUT_MS : Nat := 2000

/-- Result of the `prisma.$transaction` block: either a committed new
inventory state, or a rollback carrying the thrown error message. -/
inductive TxResult where
  | committed (s : InvState)
  | rolledBack (errMsg : String)
deriving Repr, DecidableEq

/-- The `prisma.$transaction` body of `POST /inventory/deduct`: look the
product up, throw if it is absent or its stock is below the requested
quantity, otherwise write the decremented stock and create the idempotency
log row.  `interrupted` models the transaction being interrupted before
commit: prisma then rolls the whole transaction back, so no partial state
is ever produced. -/
def deductTx (s : InvState) (pid : Nat) (q : Int) (oid : String)
    (interrupted : Bool) : TxResult :=
  if interrupted then
    .rolledBack "transaction interrupted"
  else
    match findProduct s.products pid with
    | none => .rolledBack insufficientMsg
    | some p =>
      if p.stock < q then
        .rolledBack insufficientMsg
      else
        .committed
          { products := updateStock s.products pid (p.stock - q)
            idempotencyLog := oid :: s.idempotencyLog }

/-- Outcome of one `POST /inventory/deduct` request. -/
inductive DeductResult where
  | deducted
  | alreadyDeducted
  | invalidRequest (msg : String)
  | businessError (msg : String)
deriving Repr, DecidableEq

/-- What one `POST /inventory/deduct` call produces: the inventory state
after the call, the response, and the artificial response delay in ms. -/
structure DeductOutcome where
  state : InvState
  result : DeductResult
  delayMs : Nat
deriving Repr, DecidableEq

/-- The `POST /inventory/deduct` handler: validate the fields, short-circuit
on an existing idempotency log row, otherwise run the transaction; after a
commit, delay the response by 5000 ms when the quantity is 13. -/
def deduct (s : InvState) (productId : Option Nat) (quantity : Option Int)
    (orderId : Option String) : DeductOutcome :=
  if truthyNat productId && truthyInt quantity && truthyStr orderId then
    let pid := productId.getD 0
    let q := quantity.getD 0
    let oid := orderId.getD ""
    if oid ∈ s.idempotencyLog then
      ⟨s, .alreadyDeducted, 0⟩
    else
      match deductTx s pid q oid false with
      | .rolledBack msg => ⟨s, .businessError msg, 0⟩
      | .committed s' =>
        ⟨s', .deducted, if q = GREMLIN_QUANTITY then GREMLIN_DELAY_MS else 0⟩
  else
    ⟨s, .invalidRequest missingFieldsMsg, 0⟩

/-- Order lifecycle status. -/
inductive OrderStatus where
  | pending
  | confirmed
  | failed
deriving Repr, DecidableEq

/-- A row of the `Order` table. -/
structure Order where
  id : String
  productId : Nat
  quantity : Int
  status : OrderStatus
deriving Repr, DecidableEq

/-- Combined persistent state: the inventory service's state plus the order
service's order table. -/
structure SystemState where
  inv : InvState
  orders : List Order
deriving Repr, DecidableEq

/-- `prisma.order.update (where id = oid) (data status = st)`. -/
def setStatus : List Order → String → OrderStatus → List Order
  | [], _, _ => []
  | o :: os, oid, st =>
    (if o.id == oid then { o with status := st } else o) :: setStatus os oid st

/-- First order row whose id matches. -/
def findOrder : List Order → String → Option Order
  | [], _ => none
  | o :: os, oid => if o.id == oid then some o else findOrder os oid

/-- Status of the order with id `oid`, if present. -/
def orderStatus (sys : SystemState) (oid : String) : Option OrderStatus :=
  (findOrder sys.orders oid).map (fun o => o.status)

/-- Timeout-specific failure message of `POST /orders`. -/
def timeoutMessage : String := "Order processing timed out waiting for inventory"

/-- Generic inventory-failure message of `POST /orders`. -/
def inventoryFailMessage : String := "Order failed due to inventory issue"

/-- Validation error message of `POST /orders`. -/
def missingOrderFieldsMsg : String := "Missing productId or quantity"

/-- The HTTP response of one `POST /orders` request, plus the trace of
order-status writes the handler performed (`prisma.order.create` with
status PENDING, then at most one `prisma.order.update`). -/
structure PlaceOrderResult where
  httpStatus : Nat
  body_order : Option Order
  body_error : Option String
  body_orderId : Option String
  statusWrites : List (String × OrderStatus)
deriving Repr, DecidableEq

/-- The `POST /orders` handler: validate, create a PENDING order, call the
inventory service with the order id as idempotency key under a 2000 ms
deadline, then write the terminal status.  A response delay above the
deadline surfaces as an axios `ECONNABORTED` error, which yields the
timeout-specific message; any non-200 inventory response yields the generic
inventory-failure message.  The inventory state is the one the handler
committed, whether or not the caller waited for the response. -/
def placeOrder (sys : SystemState) (newOrderId : String)
    (productId : Option Nat) (quantity : Option Int) :
    SystemState × PlaceOrderResult :=
  if truthyNat productId && truthyInt quantity then
    let pid := productId.getD 0
    let q := quantity.getD 0
    let order : Order :=
      { id := newOrderId, productId := pid, quantity := q, status := .pending }
    let sys1 : SystemState := { sys with orders := order :: sys.orders }
    let d := deduct sys.inv productId quantity (some newOrderId)
    let sys2 : SystemState := { sys1 with inv := d.state }
    if ORDER_TIMEOUT_MS < d.delayMs then
      ({ sys2 with orders := setStatus sys2.orders newOrderId .failed },
       { httpStatus := 503
         body_order := none
         body_error := some timeoutMessage
         body_orderId := some newOrderId
         statusWrites := [(newOrderId, .pending), (newOrderId, .failed)] })
    else
      match d.result with
      | .deducted =>
        ({ sys2 with orders := setStatus sys2.orders newOrderId .confirmed },
         { httpStatus := 201
           body_order := some { order with status := .confirmed }
           body_error := none
           body_orderId := none
           statusWrites := [(newOrderId, .pending), (newOrderId, .confirmed)] })
      | .alreadyDeducted =>
        ({ sys2 with orders := setStatus sys2.orders newOrderId .confirmed },
         { httpStatus := 201
           body_order := some { order with status := .confirmed }
           body_error := none
           body_orderId := none
           statusWrites := [(newOrderId, .pending), (newOrderId, .confirmed)] })
      | _ =>
        ({ sys2 with orders := setStatus sys2.orders newOrderId .failed },
         { httpStatus := 503
           body_order := none
           body_error := some inventoryFailMessage
           body_orderId := some newOrderId
           statusWrites := [(newOrderId, .pending), (newOrderId, .failed)] })
  else
    (sys,
     { httpStatus := 400
       body_order := none
       body_error := some missingOrderFieldsMsg
       body_orderId := none
       statusWrites := [] })

/-- All stock counts in the state are non-negative. -/
def allStockNonneg (s : InvState) : Prop :=
  ∀ p ∈ s.products, 0 ≤ p.stock

end Valerix

namespace Valerix

theorem truthy_all (pid : Nat) (q : Int) (oid : String)
    (hpid : pid ≠ 0) (hq : q ≠ 0) (hoid : oid ≠ "") :
    (truthyNat (some pid) && truthyInt (some q) && truthyStr (some oid)) = true := by
  simp [truthyNat, truthyInt, truthyStr, hpid, hq, hoid]

theorem findProduct_updateStock (ps : List Product) (pid : Nat) (v : Int)
    (p : Product) (h : findProduct ps pid = some p) :
    findProduct (updateStock ps pid v) pid = some { p with stock := v } := by
  induction ps with
  | nil => simp [findProduct] at h
  | cons a ps ih =>
    by_cases ha : (a.id == pid) = true
    · rw [findProduct, if_pos ha] at h
      injection h with h
      subst h
      rw [updateStock, if_pos ha, findProduct, if_pos ha]
    · rw [findProduct, if_neg ha] at h
      rw [updateStock, if_neg ha, findProduct, if_neg ha]
      exact ih h

theorem deduct_first_eq (s : InvState) (pid : Nat) (q : Int) (oid : String)
    (p : Product) (hpid : pid ≠ 0) (hq : q ≠ 0) (hoid : oid ≠ "")
    (hfresh : oid ∉ s.idempotencyLog)
    (hfind : findProduct s.products pid = some p) (hstock : q ≤ p.stock) :
    deduct s (some pid) (some q) (some oid) =
      ⟨⟨updateStock s.products pid (p.stock - q), oid :: s.idempotencyLog⟩,
        .deducted,
        if q = GREMLIN_QUANTITY then GREMLIN_DELAY_MS else 0⟩ := by
  have h1 := truthy_all pid q oid hpid hq hoid
  have h2 : ¬ p.stock < q := not_lt.mpr hstock
  simp [deduct, h1, hfresh, deductTx, hfind, h2]

theorem deduct_replay (s : InvState) (pid : Nat) (q : Int) (oid : String)
    (hpid : pid ≠ 0) (hq : q ≠ 0) (hoid : oid ≠ "")
    (hmem : oid ∈ s.idempotencyLog) :
    deduct s (some pid) (some q) (some oid) = ⟨s, .alreadyDeducted, 0⟩ := by
  have h1 := truthy_all pid q oid hpid hq hoid
  simp [deduct, h1, hmem]

/-- C1: invoking `deduct` repeatedly with the same operation identifier
commits exactly one stock decrement: the first call (valid product,
sufficient stock) returns `Deducted` and writes the decremented stock; every
subsequent call returns `AlreadyDeducted`, leaves the state unchanged (so
any number of iterated replays is a no-op) and carries no injected delay. -/
theorem c1_deduct_idempotent (s : InvState) (pid : Nat) (q : Int)
    (oid : String) (p : Product) (hpid : pid ≠ 0) (hq : q ≠ 0)
    (hoid : oid ≠ "") (hfresh : oid ∉ s.idempotencyLog)
    (hfind : findProduct s.products pid = some p) (hstock : q ≤ p.stock) :
    (deduct s (some pid) (some q) (some oid)).result = .deducted ∧
    stockOf (deduct s (some pid) (some q) (some oid)).state pid
      = some (p.stock - q) ∧
    deduct (deduct s (some pid) (some q) (some oid)).state
        (some pid) (some q) (some oid)
      = ⟨(deduct s (some pid) (some q) (some oid)).state,
          .alreadyDeducted, 0⟩ ∧
    ∀ n : Nat,
      (fun t => (deduct t (some pid) (some q) (some oid)).state)^[n]
          (deduct s (some pid) (some q) (some oid)).state
        = (deduct s (some pid) (some q) (some oid)).state := by
  have hd := deduct_first_eq s pid q oid p hpid hq hoid hfresh hfind hstock
  have hmem : oid ∈ (deduct s (some pid) (some q) (some oid)).state.idempotencyLog := by
    rw [hd]; exact List.mem_cons_self _ _
  have hreplay := deduct_replay _ pid q oid hpid hq hoid hmem
  refine ⟨by rw [hd], ?_, hreplay, ?_⟩
  · rw [hd]
    simp [stockOf, findProduct_updateStock _ _ _ _ hfind]
  · intro n
    induction n with
    | zero => rfl
    | succ n ih =>
      rw [Function.iterate_succ_apply]
      simp only [hreplay]
      exact ih

/-- Concrete state for witnesses: one product with stock 100, empty logs. -/
def wS : InvState := ⟨[⟨1, "Quantum Processor", 100⟩], []⟩

/-- Witness for C1 at a concrete input: product 1, stock 100, quantity 1,
operation id "o1"; the second call replays and the state is a fixed point. -/
theorem c1_witness :
    (deduct wS (some 1) (some 1) (some "o1")).result = .deducted ∧
    stockOf (deduct wS (some 1) (some 1) (some "o1")).state 1
      = some ((100 : Int) - 1) ∧
    deduct (deduct wS (some 1) (some 1) (some "o1")).state
        (some 1) (some 1) (some "o1")
      = ⟨(deduct wS (some 1) (some 1) (some "o1")).state,
          .alreadyDeducted, 0⟩ ∧
    (fun t => (deduct t (some 1) (some 1) (some "o1")).state)^[5]
        (deduct wS (some 1) (some 1) (some "o1")).state
      = (deduct wS (some 1) (some 1) (some "o1")).state := by
  have h := c1_deduct_idempotent wS 1 1 "o1" ⟨1, "Quantum Processor", 100⟩
    (by decide) (by decide) (by decide) (by simp [wS])
    (by rfl) (by decide)
  exact ⟨h.1, h.2.1, h.2.2.1, h.2.2.2 5⟩

end Valerix

namespace Valerix

theorem deductTx_committed_shape (s : InvState) (pid : Nat) (q : Int)
    (oid : String) (i : Bool) (s' : InvState)
    (h : deductTx s pid q oid i = .committed s') :
    ∃ p, findProduct s.products pid = some p ∧ ¬ p.stock < q ∧
      s' = ⟨updateStock s.products pid (p.stock - q),
            oid :: s.idempotencyLog⟩ := by
  unfold deductTx at h
  cases i with
  | true => simp at h
  | false =>
    simp only [Bool.false_eq_true, if_false] at h
    cases hf : findProduct s.products pid with
    | none => simp only [hf] at h; simp at h
    | some p =>
      simp only [hf] at h
      by_cases hs : p.stock < q
      · simp only [if_pos hs] at h; simp at h
      · simp only [if_neg hs] at h
        injection h with h
        exact ⟨p, rfl, hs, h.symm⟩

theorem deductTx_rolledBack_msg (s : InvState) (pid : Nat) (q : Int)
    (oid : String) (m : String)
    (h : deductTx s pid q oid false = .rolledBack m) : m = insufficientMsg := by
  unfold deductTx at h
  simp only [Bool.false_eq_true, if_false] at h
  cases hf : findProduct s.products pid with
  | none => simp only [hf] at h; injection h with h; exact h.symm
  | some p =>
    simp only [hf] at h
    by_cases hs : p.stock < q
    · simp only [if_pos hs] at h; injection h with h; exact h.symm
    · simp only [if_neg hs] at h; simp at h

theorem deduct_businessError_state (s : InvState) (a : Option Nat)
    (b : Option Int) (c : Option String) (m : String)
    (h : (deduct s a b c).result = .businessError m) :
    (deduct s a b c).state = s ∧ m = insufficientMsg := by
  unfold deduct at h ⊢
  by_cases h1 : (truthyNat a && truthyInt b && truthyStr c) = true
  · rw [if_pos h1] at h ⊢
    by_cases h2 : c.getD "" ∈ s.idempotencyLog
    · rw [if_pos h2] at h; simp at h
    · rw [if_neg h2] at h ⊢
      cases htx : deductTx s (a.getD 0) (b.getD 0) (c.getD "") false with
      | committed s' => simp only [htx] at h; simp at h
      | rolledBack msg =>
        simp only [htx] at h ⊢
        simp at h ⊢
        exact h ▸ deductTx_rolledBack_msg _ _ _ _ _ htx
  · rw [if_neg h1] at h; simp at h

end Valerix

namespace Valerix

/-- Concrete low-stock state: one product with stock 5, empty log. -/
def wLow : InvState := ⟨[⟨1, "Flux Capacitor", 5⟩], []⟩

/-- C2: the stock decrement and the idempotency-log entry are one atomic
transaction: a committed transaction contains both writes (decremented stock
and the new log row); a transaction that fails its stock check, and a
transaction interrupted before commit, roll back completely — the handler's
state is unchanged and the underlying error message is propagated in the
response. -/
theorem c2_atomicity (s : InvState) (pid : Nat) (q : Int) (oid : String)
    (interrupted : Bool) :
    (∀ s', deductTx s pid q oid interrupted = .committed s' →
       stockOf s' pid = (stockOf s pid).map (fun x => x - q) ∧
       s'.idempotencyLog = oid :: s.idempotencyLog ∧
       oid ∈ s'.idempotencyLog) ∧
    (∀ a b c m, (deduct s a b c).result = .businessError m →
       (deduct s a b c).state = s ∧ m = insufficientMsg) ∧
    (interrupted = true →
       deductTx s pid q oid interrupted = .rolledBack "transaction interrupted") := by
  refine ⟨?_, ?_, ?_⟩
  · intro s' h
    obtain ⟨p, hf, hs, heq⟩ := deductTx_committed_shape s pid q oid interrupted s' h
    subst heq
    refine ⟨?_, rfl, List.mem_cons_self _ _⟩
    rw [show stockOf ⟨updateStock s.products pid (p.stock - q),
          oid :: s.idempotencyLog⟩ pid
        = (findProduct (updateStock s.products pid (p.stock - q)) pid).map
            (fun x => x.stock) from rfl,
      findProduct_updateStock _ _ _ _ hf]
    simp [stockOf, hf]
  · exact fun a b c m h => deduct_businessError_state s a b c m h
  · intro hi
    subst hi
    rw [deductTx, if_pos rfl]

/-- Witness for C2: transaction outcomes at concrete inputs — a committed
transaction carries both writes; a rejected deduction leaves the state
untouched; an interrupted transaction rolls back. -/
theorem c2_witness :
    (stockOf (⟨[⟨1, "Quantum Processor", 99⟩], ["o1"]⟩ : InvState) 1
        = (stockOf wS 1).map (fun x => x - 1) ∧
      InvState.idempotencyLog ⟨[⟨1, "Quantum Processor", 99⟩], ["o1"]⟩
        = "o1" :: wS.idempotencyLog ∧
      "o1" ∈ InvState.idempotencyLog ⟨[⟨1, "Quantum Processor", 99⟩], ["o1"]⟩) ∧
    ((deduct wLow (some 1) (some 10) (some "oB")).state = wLow ∧
      insufficientMsg = insufficientMsg) ∧
    deductTx wS 1 1 "o1" true = .rolledBack "transaction interrupted" := by
  refine ⟨(c2_atomicity wS 1 1 "o1" false).1
      ⟨[⟨1, "Quantum Processor", 99⟩], ["o1"]⟩ (by decide),
    (c2_atomicity wLow 1 10 "oB" false).2.1 (some 1) (some 10) (some "oB")
      insufficientMsg (by decide),
    (c2_atomicity wS 1 1 "o1" true).2.2 rfl⟩

theorem updateStock_nonneg (ps : List Product) (pid : Nat) (v : Int)
    (hv : 0 ≤ v) (h : ∀ p ∈ ps, 0 ≤ p.stock) :
    ∀ p ∈ updateStock ps pid v, 0 ≤ p.stock := by
  induction ps with
  | nil => intro x hx; simp [updateStock] at hx
  | cons a ps ih =>
    intro x hx
    rw [updateStock] at hx
    rcases List.mem_cons.mp hx with hx | hx
    · by_cases ha : (a.id == pid) = true
      · rw [if_pos ha] at hx; subst hx; exact hv
      · rw [if_neg ha] at hx; subst hx
        exact h x (List.mem_cons_self _ _)
    · exact ih (fun p hp => h p (List.mem_cons_of_mem _ hp)) x hx

theorem deduct_preserves_nonneg (s : InvState) (a : Option Nat)
    (b : Option Int) (c : Option String) (h : allStockNonneg s) :
    allStockNonneg (deduct s a b c).state := by
  unfold deduct
  by_cases h1 : (truthyNat a && truthyInt b && truthyStr c) = true
  · rw [if_pos h1]
    by_cases h2 : c.getD "" ∈ s.idempotencyLog
    · rw [if_pos h2]; exact h
    · rw [if_neg h2]
      cases htx : deductTx s (a.getD 0) (b.getD 0) (c.getD "") false with
      | rolledBack m => exact h
      | committed s' =>
        obtain ⟨p, hf, hs, heq⟩ :=
          deductTx_committed_shape _ _ _ _ _ _ htx
        subst heq
        intro x hx
        exact updateStock_nonneg _ _ _
          (by have := not_lt.mp hs; omega) h x hx
  · rw [if_neg h1]; exact h

theorem deductSeq_nonneg (ops : List (Option Nat × Option Int × Option String))
    (s : InvState) (h : allStockNonneg s) :
    allStockNonneg
      (ops.foldl (fun t op => (deduct t op.1 op.2.1 op.2.2).state) s) := by
  induction ops generalizing s with
  | nil => exact h
  | cons op ops ih =>
    exact ih _ (deduct_preserves_nonneg _ _ _ _ h)

theorem deduct_reject_eq (s : InvState) (pid : Nat) (q : Int) (oid : String)
    (hpid : pid ≠ 0) (hq : q ≠ 0) (hoid : oid ≠ "")
    (hfresh : oid ∉ s.idempotencyLog)
    (hfail : findProduct s.products pid = none ∨
      ∃ p, findProduct s.products pid = some p ∧ p.stock < q) :
    deduct s (some pid) (some q) (some oid)
      = ⟨s, .businessError insufficientMsg, 0⟩ := by
  have h1 := truthy_all pid q oid hpid hq hoid
  rcases hfail with hf | ⟨p, hf, hs⟩
  · simp [deduct, h1, hfresh, deductTx, hf]
  · simp [deduct, h1, hfresh, deductTx, hf, hs]

/-- C3: stock non-negativity — starting from a state with all stock counts
non-negative, any sequence of `deduct` calls (arbitrary inputs) keeps every
committed stock count non-negative; and a request whose quantity exceeds the
product's stock is rejected with the insufficient-stock error and changes
neither the stock nor the idempotency log. -/
theorem c3_nonneg (s : InvState) (h : allStockNonneg s) :
    (∀ ops : List (Option Nat × Option Int × Option String),
       allStockNonneg
         (ops.foldl (fun t op => (deduct t op.1 op.2.1 op.2.2).state) s)) ∧
    (∀ pid q oid p, pid ≠ 0 → q ≠ 0 → oid ≠ "" → oid ∉ s.idempotencyLog →
       findProduct s.products pid = some p → p.stock < q →
       deduct s (some pid) (some q) (some oid)
         = ⟨s, .businessError insufficientMsg, 0⟩) := by
  refine ⟨fun ops => deductSeq_nonneg ops s h, ?_⟩
  intro pid q oid p hpid hq hoid hfresh hfind hs
  exact deduct_reject_eq s pid q oid hpid hq hoid hfresh (Or.inr ⟨p, hfind, hs⟩)

/-- Witness for C3: a concrete three-call sequence keeps stock non-negative,
and a concrete over-large request is rejected without a state change. -/
theorem c3_witness :
    allStockNonneg
      ([(some 1, some 1, some "o1"), (some 1, some 200, some "o2"),
        (some 1, some 13, some "o3")].foldl
        (fun t op => (deduct t op.1 op.2.1 op.2.2).state) wS) ∧
    deduct wLow (some 1) (some 10) (some "oC")
      = ⟨wLow, .businessError insufficientMsg, 0⟩ := by
  refine ⟨(c3_nonneg wS (by unfold allStockNonneg; decide)).1 _, ?_⟩
  exact (c3_nonneg wLow (by unfold allStockNonneg; decide)).2 1 10 "oC" ⟨1, "Flux Capacitor", 5⟩
    (by decide) (by decide) (by decide) (by simp [wLow]) rfl (by decide)

end Valerix

namespace Valerix

/-- C6 counterexample: in the state `wLow` (product 1 exists with stock 5,
product 2 does not exist) a quantity-10 deduction fails identically for the
existing product (insufficient stock) and the missing product (not found):
one merged error, so the two causes are not distinguishable outcomes. -/
theorem c6_counterexample :
    findProduct wLow.products 1 = some ⟨1, "Flux Capacitor", 5⟩ ∧
    findProduct wLow.products 2 = none ∧
    deduct wLow (some 1) (some 10) (some "oA")
      = ⟨wLow, .businessError insufficientMsg, 0⟩ ∧
    deduct wLow (some 2) (some 10) (some "oB")
      = ⟨wLow, .businessError insufficientMsg, 0⟩ ∧
    (deduct wLow (some 1) (some 10) (some "oA")).result
      = (deduct wLow (some 2) (some 10) (some "oB")).result := by
  refine ⟨rfl, rfl, by decide, by decide, by decide⟩

/-- C6 (amended): a deduction on a missing product and a deduction on an
existing product with insufficient stock both fail with the same single
merged error "Insufficient stock or product not found" and no state change;
the two failure causes are not distinguishable in the response. -/
theorem c6_merged_error (s : InvState) (pid : Nat) (q : Int) (oid : String)
    (hpid : pid ≠ 0) (hq : q ≠ 0) (hoid : oid ≠ "")
    (hfresh : oid ∉ s.idempotencyLog) :
    (findProduct s.products pid = none →
       deduct s (some pid) (some q) (some oid)
         = ⟨s, .businessError insufficientMsg, 0⟩) ∧
    (∀ p, findProduct s.products pid = some p → p.stock < q →
       deduct s (some pid) (some q) (some oid)
         = ⟨s, .businessError insufficientMsg, 0⟩) :=
  ⟨fun hf => deduct_reject_eq s pid q oid hpid hq hoid hfresh (Or.inl hf),
   fun p hf hs =>
     deduct_reject_eq s pid q oid hpid hq hoid hfresh (Or.inr ⟨p, hf, hs⟩)⟩

/-- Witness for the amended C6 at concrete inputs in `wLow`: missing product
2 and under-stocked product 1 produce the identical merged-error outcome. -/
theorem c6_witness :
    deduct wLow (some 2) (some 10) (some "oB")
      = ⟨wLow, .businessError insufficientMsg, 0⟩ ∧
    deduct wLow (some 1) (some 10) (some "oA")
      = ⟨wLow, .businessError insufficientMsg, 0⟩ := by
  refine ⟨(c6_merged_error wLow 2 10 "oB" (by decide) (by decide) (by decide)
      (by simp [wLow])).1 rfl,
    (c6_merged_error wLow 1 10 "oA" (by decide) (by decide) (by decide)
      (by simp [wLow])).2 ⟨1, "Flux Capacitor", 5⟩ rfl (by decide)⟩

/-- C10 (implicit): a strictly negative quantity passes the JS truthiness
validation of both services, never trips the stock guard on a product with
non-negative stock, and commits `stock - quantity` — a strict increase —
together with the idempotency-log row, returning `Deducted`. -/
theorem c10_negative_quantity (s : InvState) (pid : Nat) (q : Int)
    (oid : String) (p : Product) (hq : q < 0) (hpid : pid ≠ 0)
    (hoid : oid ≠ "") (hfresh : oid ∉ s.idempotencyLog)
    (hfind : findProduct s.products pid = some p) (hstock : 0 ≤ p.stock) :
    truthyInt (some q) = true ∧
    truthyNat (some pid) = true ∧
    (deduct s (some pid) (some q) (some oid)).result = .deducted ∧
    stockOf (deduct s (some pid) (some q) (some oid)).state pid
      = some (p.stock - q) ∧
    p.stock < p.stock - q ∧
    oid ∈ (deduct s (some pid) (some q) (some oid)).state.idempotencyLog := by
  have hqne : q ≠ 0 := by omega
  have hle : q ≤ p.stock := by omega
  have hd := deduct_first_eq s pid q oid p hpid hqne hoid hfresh hfind hle
  refine ⟨by simp [truthyInt, hqne], by simp [truthyNat, hpid],
    by rw [hd], ?_, by omega, ?_⟩
  · rw [hd]
    simp [stockOf, findProduct_updateStock _ _ _ _ hfind]
  · rw [hd]
    exact List.mem_cons_self _ _

/-- Witness for C10: quantity -5 on product 1 with stock 100 passes
validation, returns `Deducted`, and raises the stock to 105. -/
theorem c10_witness :
    truthyInt (some (-5)) = true ∧
    truthyNat (some 1) = true ∧
    (deduct wS (some 1) (some (-5)) (some "o9")).result = .deducted ∧
    stockOf (deduct wS (some 1) (some (-5)) (some "o9")).state 1
      = some ((100 : Int) - (-5)) ∧
    (100 : Int) < (100 : Int) - (-5) ∧
    "o9" ∈ (deduct wS (some 1) (some (-5)) (some "o9")).state.idempotencyLog := by
  exact c10_negative_quantity wS 1 (-5) "o9" ⟨1, "Quantum Processor", 100⟩
    (by decide) (by decide) (by decide) (by simp [wS]) rfl (by decide)

end Valerix

namespace Valerix

theorem placeOrder_timeout_eq (sys : SystemState) (newOrderId : String)
    (productId : Option Nat) (quantity : Option Int)
    (hvalid : (truthyNat productId && truthyInt quantity) = true)
    (hdelay : ORDER_TIMEOUT_MS <
      (deduct sys.inv productId quantity (some newOrderId)).delayMs) :
    placeOrder sys newOrderId productId quantity =
      ({ inv := (deduct sys.inv productId quantity (some newOrderId)).state
         orders := setStatus
           ({ id := newOrderId, productId := productId.getD 0,
              quantity := quantity.getD 0, status := .pending } :: sys.orders)
           newOrderId .failed },
       { httpStatus := 503
         body_order := none
         body_error := some timeoutMessage
         body_orderId := some newOrderId
         statusWrites := [(newOrderId, .pending), (newOrderId, .failed)] }) := by
  unfold placeOrder
  rw [if_pos hvalid]
  simp only [if_pos hdelay]

end Valerix

namespace Valerix

theorem placeOrder_success_eq (sys : SystemState) (newOrderId : String)
    (productId : Option Nat) (quantity : Option Int)
    (hvalid : (truthyNat productId && truthyInt quantity) = true)
    (hdelay : ¬ ORDER_TIMEOUT_MS <
      (deduct sys.inv productId quantity (some newOrderId)).delayMs)
    (hres : (deduct sys.inv productId quantity (some newOrderId)).result
        = .deducted ∨
      (deduct sys.inv productId quantity (some newOrderId)).result
        = .alreadyDeducted) :
    placeOrder sys newOrderId productId quantity =
      ({ inv := (deduct sys.inv productId quantity (some newOrderId)).state
         orders := setStatus
           ({ id := newOrderId, productId := productId.getD 0,
              quantity := quantity.getD 0, status := .pending } :: sys.orders)
           newOrderId .confirmed },
       { httpStatus := 201
         body_order := some
           { id := newOrderId, productId := productId.getD 0,
             quantity := quantity.getD 0, status := .confirmed }
         body_error := none
         body_orderId := none
         statusWrites := [(newOrderId, .pending), (newOrderId, .confirmed)] }) := by
  unfold placeOrder
  rw [if_pos hvalid]
  simp only [if_neg hdelay]
  rcases hres with h | h <;> simp only [h]

theorem placeOrder_fail_eq (sys : SystemState) (newOrderId : String)
    (productId : Option Nat) (quantity : Option Int) (m : String)
    (hvalid : (truthyNat productId && truthyInt quantity) = true)
    (hdelay : ¬ ORDER_TIMEOUT_MS <
      (deduct sys.inv productId quantity (some newOrderId)).delayMs)
    (hres : (deduct sys.inv productId quantity (some newOrderId)).result
        = .invalidRequest m ∨
      (deduct sys.inv productId quantity (some newOrderId)).result
        = .businessError m) :
    placeOrder sys newOrderId productId quantity =
      ({ inv := (deduct sys.inv productId quantity (some newOrderId)).state
         orders := setStatus
           ({ id := newOrderId, productId := productId.getD 0,
              quantity := quantity.getD 0, status := .pending } :: sys.orders)
           newOrderId .failed },
       { httpStatus := 503
         body_order := none
         body_error := some inventoryFailMessage
         body_orderId := some newOrderId
         statusWrites := [(newOrderId, .pending), (newOrderId, .failed)] }) := by
  unfold placeOrder
  rw [if_pos hvalid]
  simp only [if_neg hdelay]
  rcases hres with h | h <;> simp only [h]

theorem placeOrder_invalid_eq (sys : SystemState) (newOrderId : String)
    (productId : Option Nat) (quantity : Option Int)
    (hvalid : (truthyNat productId && truthyInt quantity) = false) :
    placeOrder sys newOrderId productId quantity =
      (sys,
       { httpStatus := 400
         body_order := none
         body_error := some missingOrderFieldsMsg
         body_orderId := none
         statusWrites := [] }) := by
  unfold placeOrder
  rw [if_neg (by simp [hvalid])]

theorem orderStatus_setStatus_cons (inv : InvState) (o : Order)
    (os : List Order) (oid : String) (st : OrderStatus) (h : o.id = oid) :
    orderStatus ⟨inv, setStatus (o :: os) oid st⟩ oid = some st := by
  simp [orderStatus, setStatus, findOrder, h]

theorem mem_setStatus_of_ne (os : List Order) (oid : String)
    (st : OrderStatus) (o : Order) (ho : o ∈ os) (hne : o.id ≠ oid) :
    o ∈ setStatus os oid st := by
  induction os with
  | nil => cases ho
  | cons a os ih =>
    rw [setStatus]
    rcases List.mem_cons.mp ho with h | h
    · subst h
      rw [if_neg (by simpa using hne)]
      exact List.mem_cons_self _ _
    · exact List.mem_cons_of_mem _ (ih h)

theorem mem_setStatus_cons (order : Order) (os : List Order) (oid : String)
    (st : OrderStatus) (o : Order) (ho : o ∈ os) (hne : o.id ≠ oid) :
    o ∈ setStatus (order :: os) oid st := by
  rw [setStatus]
  exact List.mem_cons_of_mem _ (mem_setStatus_of_ne os oid st o ho hne)

end Valerix

namespace Valerix

/-- Concrete combined state for witnesses: product 1 with stock 100, no
orders. -/
def wSys : SystemState := ⟨wS, []⟩

/-- Concrete combined state with low stock: product 1 with stock 5. -/
def wLowSys : SystemState := ⟨wLow, []⟩

/-- C4: when the deduction handler's response is delayed beyond the 2000 ms
deadline, the order ends FAILED, the surfaced reason is the timeout message
(textually distinct from the business-failure and validation messages), the
failure body carries the order id — and the handler's committed state is
kept, i.e. the handler may well have succeeded. -/
theorem c4_timeout (sys : SystemState) (newOrderId : String)
    (productId : Option Nat) (quantity : Option Int)
    (hvalid : (truthyNat productId && truthyInt quantity) = true)
    (hdelay : ORDER_TIMEOUT_MS <
      (deduct sys.inv productId quantity (some newOrderId)).delayMs) :
    (placeOrder sys newOrderId productId quantity).2.httpStatus = 503 ∧
    (placeOrder sys newOrderId productId quantity).2.body_error
      = some timeoutMessage ∧
    timeoutMessage ≠ inventoryFailMessage ∧
    timeoutMessage ≠ missingOrderFieldsMsg ∧
    (placeOrder sys newOrderId productId quantity).2.body_orderId
      = some newOrderId ∧
    orderStatus (placeOrder sys newOrderId productId quantity).1 newOrderId
      = some .failed ∧
    (placeOrder sys newOrderId productId quantity).1.inv
      = (deduct sys.inv productId quantity (some newOrderId)).state := by
  rw [placeOrder_timeout_eq sys newOrderId productId quantity hvalid hdelay]
  exact ⟨rfl, rfl, by decide, by decide, rfl,
    orderStatus_setStatus_cons _ _ _ _ _ rfl, rfl⟩

/-- Witness for C4: quantity 13 triggers the 5000 ms gremlin, exceeding the
2000 ms deadline; the order fails with the timeout message even though the
deduction committed. -/
theorem c4_witness :
    (placeOrder wSys "ord1" (some 1) (some 13)).2.httpStatus = 503 ∧
    (placeOrder wSys "ord1" (some 1) (some 13)).2.body_error
      = some timeoutMessage ∧
    timeoutMessage ≠ inventoryFailMessage ∧
    timeoutMessage ≠ missingOrderFieldsMsg ∧
    (placeOrder wSys "ord1" (some 1) (some 13)).2.body_orderId
      = some "ord1" ∧
    orderStatus (placeOrder wSys "ord1" (some 1) (some 13)).1 "ord1"
      = some .failed ∧
    (placeOrder wSys "ord1" (some 1) (some 13)).1.inv
      = (deduct wSys.inv (some 1) (some 13) (some "ord1")).state :=
  c4_timeout wSys "ord1" (some 1) (some 13) (by decide) (by decide)

/-- C5: when the deduction handler answers `Deducted` or `AlreadyDeducted`
within the deadline, the saga transitions the order PENDING → CONFIRMED and
returns the confirmed order with HTTP 201. -/
theorem c5_confirmed (sys : SystemState) (newOrderId : String)
    (productId : Option Nat) (quantity : Option Int)
    (hvalid : (truthyNat productId && truthyInt quantity) = true)
    (hdelay : (deduct sys.inv productId quantity (some newOrderId)).delayMs
      ≤ ORDER_TIMEOUT_MS)
    (hres : (deduct sys.inv productId quantity (some newOrderId)).result
        = .deducted ∨
      (deduct sys.inv productId quantity (some newOrderId)).result
        = .alreadyDeducted) :
    (placeOrder sys newOrderId productId quantity).2.httpStatus = 201 ∧
    ((placeOrder sys newOrderId productId quantity).2.body_order).map
        (fun o => o.status) = some OrderStatus.confirmed ∧
    (placeOrder sys newOrderId productId quantity).2.statusWrites
      = [(newOrderId, .pending), (newOrderId, .confirmed)] ∧
    orderStatus (placeOrder sys newOrderId productId quantity).1 newOrderId
      = some .confirmed := by
  rw [placeOrder_success_eq sys newOrderId productId quantity hvalid
    (not_lt.mpr hdelay) hres]
  exact ⟨rfl, rfl, rfl, orderStatus_setStatus_cons _ _ _ _ _ rfl⟩

/-- Witness for C5, the spec's scenario: product 1 with stock 100, order of
quantity 1 → HTTP 201, order CONFIRMED, stock 99. -/
theorem c5_witness :
    ((placeOrder wSys "ord1" (some 1) (some 1)).2.httpStatus = 201 ∧
     ((placeOrder wSys "ord1" (some 1) (some 1)).2.body_order).map
         (fun o => o.status) = some OrderStatus.confirmed ∧
     (placeOrder wSys "ord1" (some 1) (some 1)).2.statusWrites
       = [("ord1", .pending), ("ord1", .confirmed)] ∧
     orderStatus (placeOrder wSys "ord1" (some 1) (some 1)).1 "ord1"
       = some .confirmed) ∧
    stockOf (placeOrder wSys "ord1" (some 1) (some 1)).1.inv 1 = some 99 :=
  ⟨c5_confirmed wSys "ord1" (some 1) (some 1) (by decide) (by decide)
    (Or.inl (by decide)), by decide⟩

theorem deduct_delay_only_gremlin (t : InvState) (a : Option Nat)
    (b : Option Int) (c : Option String)
    (hne : (deduct t a b c).delayMs ≠ 0) :
    b = some GREMLIN_QUANTITY ∧ (deduct t a b c).result = .deducted ∧
    (deduct t a b c).delayMs = GREMLIN_DELAY_MS := by
  unfold deduct at hne ⊢
  by_cases h1 : (truthyNat a && truthyInt b && truthyStr c) = true
  · rw [if_pos h1] at hne ⊢
    by_cases h2 : c.getD "" ∈ t.idempotencyLog
    · rw [if_pos h2] at hne; simp at hne
    · rw [if_neg h2] at hne ⊢
      cases htx : deductTx t (a.getD 0) (b.getD 0) (c.getD "") false with
      | rolledBack m => simp only [htx] at hne; simp at hne
      | committed s' =>
        simp only [htx] at hne ⊢
        by_cases hb : b.getD 0 = GREMLIN_QUANTITY
        · refine ⟨?_, by simp, by simp [hb]⟩
          cases b with
          | none => simp [truthyNat, truthyInt, truthyStr] at h1
          | some v =>
            rw [Option.getD_some] at hb
            rw [hb]
        · simp [hb] at hne
  · rw [if_neg h1] at hne; simp at hne

/-- C7: the gremlin delay is a pure frame effect — a nonzero response delay
occurs only on the committed success path and only when the requested
quantity equals the trigger value 13, and it is always 5000 ms; placing an
order with quantity 13 therefore times out (deadline 2000 ms < delay), the
order is FAILED with the timeout reason, yet the stock is already
decremented by 13. -/
theorem c7_gremlin (sys : SystemState) (newOrderId : String) (pid : Nat)
    (p : Product) (hpid : pid ≠ 0) (hoid : newOrderId ≠ "")
    (hfresh : newOrderId ∉ sys.inv.idempotencyLog)
    (hfind : findProduct sys.inv.products pid = some p)
    (hstock : (13 : Int) ≤ p.stock) :
    (∀ t a b c, (deduct t a b c).delayMs ≠ 0 →
       b = some GREMLIN_QUANTITY ∧ (deduct t a b c).result = .deducted ∧
       (deduct t a b c).delayMs = GREMLIN_DELAY_MS) ∧
    (placeOrder sys newOrderId (some pid) (some 13)).2.httpStatus = 503 ∧
    (placeOrder sys newOrderId (some pid) (some 13)).2.body_error
      = some timeoutMessage ∧
    orderStatus (placeOrder sys newOrderId (some pid) (some 13)).1 newOrderId
      = some .failed ∧
    stockOf (placeOrder sys newOrderId (some pid) (some 13)).1.inv pid
      = some (p.stock - 13) := by
  have hd := deduct_first_eq sys.inv pid 13 newOrderId p hpid (by decide)
    hoid hfresh hfind hstock
  have hdelay : ORDER_TIMEOUT_MS <
      (deduct sys.inv (some pid) (some 13) (some newOrderId)).delayMs := by
    rw [hd]
    simp [GREMLIN_QUANTITY, GREMLIN_DELAY_MS, ORDER_TIMEOUT_MS]
  have hvalid : (truthyNat (some pid) && truthyInt (some 13)) = true := by
    simp [truthyNat, truthyInt, hpid]
  refine ⟨fun t a b c hne => deduct_delay_only_gremlin t a b c hne, ?_⟩
  rw [placeOrder_timeout_eq sys newOrderId (some pid) (some 13) hvalid hdelay]
  refine ⟨rfl, rfl, orderStatus_setStatus_cons _ _ _ _ _ rfl, ?_⟩
  rw [hd]
  simp [stockOf, findProduct_updateStock _ _ _ _ hfind]

/-- Witness for C7: in `wSys` (product 1, stock 100) an order of quantity 13
fails with the timeout message while the stock drops to 87; and the delay
characterization applied at a concrete delayed call. -/
theorem c7_witness :
    ((some 13 : Option Int) = some GREMLIN_QUANTITY ∧
     (deduct wS (some 1) (some 13) (some "oD")).result = .deducted ∧
     (deduct wS (some 1) (some 13) (some "oD")).delayMs = GREMLIN_DELAY_MS) ∧
    (placeOrder wSys "ord1" (some 1) (some 13)).2.httpStatus = 503 ∧
    stockOf (placeOrder wSys "ord1" (some 1) (some 13)).1.inv 1
      = some ((100 : Int) - 13) := by
  have h := c7_gremlin wSys "ord1" 1 ⟨1, "Quantum Processor", 100⟩
    (by decide) (by decide) (by simp [wSys, wS]) rfl (by decide)
  exact ⟨h.1 wS (some 1) (some 13) (some "oD") (by decide),
    h.2.1, h.2.2.2.2⟩

end Valerix

namespace Valerix

/-- C8: terminal finality — a validated `placeOrder` run writes the order
status exactly twice: the PENDING creation and a single terminal write
(CONFIRMED or FAILED), both on the order it created; all pre-existing orders
survive untouched (their statuses included).  An invalid request writes
nothing and leaves the whole state unchanged. -/
theorem c8_terminal (sys : SystemState) (newOrderId : String)
    (productId : Option Nat) (quantity : Option Int)
    (hfreshOrder : ∀ o ∈ sys.orders, o.id ≠ newOrderId) :
    ((truthyNat productId && truthyInt quantity) = true →
       (∃ t, (t = OrderStatus.confirmed ∨ t = OrderStatus.failed) ∧
          (placeOrder sys newOrderId productId quantity).2.statusWrites
            = [(newOrderId, .pending), (newOrderId, t)] ∧
          orderStatus (placeOrder sys newOrderId productId quantity).1
            newOrderId = some t) ∧
       ∀ o ∈ sys.orders,
         o ∈ (placeOrder sys newOrderId productId quantity).1.orders) ∧
    ((truthyNat productId && truthyInt quantity) = false →
       (placeOrder sys newOrderId productId quantity).2.statusWrites = [] ∧
       (placeOrder sys newOrderId productId quantity).1 = sys) := by
  constructor
  · intro hvalid
    by_cases hdel : ORDER_TIMEOUT_MS <
        (deduct sys.inv productId quantity (some newOrderId)).delayMs
    · rw [placeOrder_timeout_eq sys newOrderId productId quantity hvalid hdel]
      exact ⟨⟨.failed, Or.inr rfl, rfl,
          orderStatus_setStatus_cons _ _ _ _ _ rfl⟩,
        fun o ho => mem_setStatus_cons _ _ _ _ o ho (hfreshOrder o ho)⟩
    · cases hres : (deduct sys.inv productId quantity (some newOrderId)).result with
      | deducted =>
        rw [placeOrder_success_eq sys newOrderId productId quantity hvalid
          hdel (Or.inl hres)]
        exact ⟨⟨.confirmed, Or.inl rfl, rfl,
            orderStatus_setStatus_cons _ _ _ _ _ rfl⟩,
          fun o ho => mem_setStatus_cons _ _ _ _ o ho (hfreshOrder o ho)⟩
      | alreadyDeducted =>
        rw [placeOrder_success_eq sys newOrderId productId quantity hvalid
          hdel (Or.inr hres)]
        exact ⟨⟨.confirmed, Or.inl rfl, rfl,
            orderStatus_setStatus_cons _ _ _ _ _ rfl⟩,
          fun o ho => mem_setStatus_cons _ _ _ _ o ho (hfreshOrder o ho)⟩
      | invalidRequest m =>
        rw [placeOrder_fail_eq sys newOrderId productId quantity m hvalid
          hdel (Or.inl hres)]
        exact ⟨⟨.failed, Or.inr rfl, rfl,
            orderStatus_setStatus_cons _ _ _ _ _ rfl⟩,
          fun o ho => mem_setStatus_cons _ _ _ _ o ho (hfreshOrder o ho)⟩
      | businessError m =>
        rw [placeOrder_fail_eq sys newOrderId productId quantity m hvalid
          hdel (Or.inr hres)]
        exact ⟨⟨.failed, Or.inr rfl, rfl,
            orderStatus_setStatus_cons _ _ _ _ _ rfl⟩,
          fun o ho => mem_setStatus_cons _ _ _ _ o ho (hfreshOrder o ho)⟩
  · intro hinvalid
    rw [placeOrder_invalid_eq sys newOrderId productId quantity hinvalid]
    exact ⟨rfl, rfl⟩

/-- Witness for C8: a valid run on `wSys` writes PENDING then one terminal
status; an invalid run (missing productId) writes nothing. -/
theorem c8_witness :
    (∃ t, (t = OrderStatus.confirmed ∨ t = OrderStatus.failed) ∧
       (placeOrder wSys "ord1" (some 1) (some 1)).2.statusWrites
         = [("ord1", .pending), ("ord1", t)] ∧
       orderStatus (placeOrder wSys "ord1" (some 1) (some 1)).1 "ord1"
         = some t) ∧
    (placeOrder wSys "ordX" none (some 1)).2.statusWrites = [] ∧
    (placeOrder wSys "ordX" none (some 1)).1 = wSys := by
  refine ⟨((c8_terminal wSys "ord1" (some 1) (some 1) ?_).1 (by decide)).1,
    (c8_terminal wSys "ordX" none (some 1) ?_).2 (by decide)⟩ <;>
    intro o ho <;> cases ho

/-- C9 counterexample: the `POST /orders` validation failure (missing
productId) is a failure response of order placement that contains no order
identifier — no order record even exists yet. -/
theorem c9_counterexample :
    (placeOrder wSys "ordV" none (some 1)).2.httpStatus = 400 ∧
    (placeOrder wSys "ordV" none (some 1)).2.body_error
      = some missingOrderFieldsMsg ∧
    (placeOrder wSys "ordV" none (some 1)).2.body_orderId = none := by
  exact ⟨by decide, by decide, by decide⟩

/-- C9 (amended): every failure response issued after the order record is
created — timeout or inventory failure, HTTP 503 — carries the order
identifier; the InvalidRequest rejection happens before any order exists
and carries none. -/
theorem c9_failure_has_orderId (sys : SystemState) (newOrderId : String)
    (productId : Option Nat) (quantity : Option Int)
    (hvalid : (truthyNat productId && truthyInt quantity) = true)
    (hfail : (placeOrder sys newOrderId productId quantity).2.httpStatus
      ≠ 201) :
    (placeOrder sys newOrderId productId quantity).2.httpStatus = 503 ∧
    (placeOrder sys newOrderId productId quantity).2.body_orderId
      = some newOrderId := by
  by_cases hdel : ORDER_TIMEOUT_MS <
      (deduct sys.inv productId quantity (some newOrderId)).delayMs
  · rw [placeOrder_timeout_eq sys newOrderId productId quantity hvalid hdel]
    exact ⟨rfl, rfl⟩
  · cases hres : (deduct sys.inv productId quantity (some newOrderId)).result with
    | deducted =>
      rw [placeOrder_success_eq sys newOrderId productId quantity hvalid
        hdel (Or.inl hres)] at hfail
      exact absurd rfl hfail
    | alreadyDeducted =>
      rw [placeOrder_success_eq sys newOrderId productId quantity hvalid
        hdel (Or.inr hres)] at hfail
      exact absurd rfl hfail
    | invalidRequest m =>
      rw [placeOrder_fail_eq sys newOrderId productId quantity m hvalid
        hdel (Or.inl hres)]
      exact ⟨rfl, rfl⟩
    | businessError m =>
      rw [placeOrder_fail_eq sys newOrderId productId quantity m hvalid
        hdel (Or.inr hres)]
      exact ⟨rfl, rfl⟩

/-- Witness for the amended C9: in the low-stock state an order of quantity
10 fails (HTTP 503) and the failure body carries the order id. -/
theorem c9_witness :
    (placeOrder wLowSys "ordF" (some 1) (some 10)).2.httpStatus = 503 ∧
    (placeOrder wLowSys "ordF" (some 1) (some 10)).2.body_orderId
      = some "ordF" :=
  c9_failure_has_orderId wLowSys "ordF" (some 1) (some 10)
    (by decide) (by decide)

end Valerix
